import Mathlib

/-!
Verification of the ZCAM camera controller heuristics.

This file gives a shallow embedding, in Lean 4, of the decision logic of the
repository's exposure/focus monitor:

* the settings advisor `recommendSettings` (src/focus.cpp, lines 702-905),
  with its ISO / EV / aperture / shutter-angle decision blocks and the
  confidence bookkeeping;
* the HTTP setting application `applyCameraSetting` / `applyRecommendations`
  (src/focus.cpp, lines 1187-1305);
* the manual H.264 stream detection `detectVideoStream`
  (src/ffmpeg_cap.cpp, with the 50 KB last-resort fallback);
* the frame analyzer `analyzeExposureAndFocus` / `calculateExposureScore` /
  `calculateFocusMetrics` (src/focus.cpp, lines 342-549).

C++ `double` arithmetic is modelled by exact rational arithmetic over `ℚ`
(square roots live in `ℝ`); `int` by `ℤ`; `uint8_t` pixel data by `ℕ`
values below 256.  `static_cast<int>` on a double is truncation toward zero,
modelled by `cTrunc`.
-/

namespace ZCam

/-- Truncation toward zero of a rational, the semantics of C++
`static_cast<int>(double)`. -/
def cTrunc (q : ℚ) : ℤ :=
  if 0 ≤ q then ⌊q⌋ else ⌈q⌉

/-- ExposureMetrics fields consumed by the settings advisor
(src/focus.cpp, struct ExposureMetrics). -/
structure ExposureMetrics where
  mean_brightness : ℚ
  contrast : ℚ
  clipped_highlights : ℚ
  clipped_shadows : ℚ
  exposure_score : ℚ
  deriving DecidableEq

/-- CameraState (src/focus.cpp, lines 69-83). -/
structure CameraState where
  current_iso : ℤ
  current_ev : ℚ
  current_aperture : String
  current_shutter_angle : ℤ
  sun_factor : ℚ
  scene_type : String
  target_brightness : ℚ
  brightness_tolerance : ℚ
  deriving DecidableEq

/-- The default-constructed CameraState of the monitor. -/
def CameraState.initial : CameraState :=
  { current_iso := 500
    current_ev := 0
    current_aperture := "5.6"
    current_shutter_angle := 180
    sun_factor := 0.5
    scene_type := "unknown"
    target_brightness := 128
    brightness_tolerance := 15 }

/-- ZCAMSettings, the advisor's recommendation record
(src/focus.cpp, lines 57-67). -/
structure ZCAMSettings where
  iso : ℤ
  exposure_compensation : ℚ
  aperture : String
  shutter_angle : ℤ
  reasoning : String
  is_native_iso : Bool
  confidence : ℚ
  deriving DecidableEq

/-- calculateSunAngleFactor (src/focus.cpp, lines 667-682), as a function of
the wall-clock hour (`tm_hour + tm_min/60`). -/
def calculateSunAngleFactor (hour : ℚ) : ℚ :=
  if 6 ≤ hour ∧ hour ≤ 22 then
    max 0.1 ((90 - |hour - 13| * 12) / 90)
  else
    0.1

/-- Output of the ISO decision block of recommendSettings. -/
structure IsoOut where
  iso : ℤ
  native : Bool
  conf : ℚ
  reasons : List String
  deriving DecidableEq

/-- ISO branch of recommendSettings (src/focus.cpp, lines 715-762).
`err` is `mean_brightness - target_brightness`, `tol` the tolerance band. -/
def isoBlock (err tol : ℚ) (iso : ℤ) : IsoOut :=
  if err < -tol then
    if iso ≤ 500 then ⟨2500, true, 0.3, ["Dark scene - jump to native ISO 2500"]⟩
    else if iso < 2500 then ⟨2500, true, 0.3, ["Increase to native ISO 2500"]⟩
    else if iso = 2500 ∧ err < -30 then
      ⟨5000, false, 0.2, ["Very dark - increase beyond native ISO"]⟩
    else ⟨iso, false, 0, []⟩
  else if tol < err then
    if 500 < iso then ⟨500, true, 0.3, ["Bright scene - reduce to native ISO 500"]⟩
    else if iso = 500 then ⟨400, false, 0.2, ["Very bright - reduce to minimum ISO 400"]⟩
    else if iso = 400 then
      ⟨iso, false, 0.1, ["At minimum ISO - use EV/aperture for brightness control"]⟩
    else ⟨iso, false, 0, []⟩
  else
    if iso ≠ 500 ∧ iso ≠ 2500 then
      if iso < 1250 then ⟨500, true, 0.1, ["Optimize to native ISO 500"]⟩
      else ⟨2500, true, 0.1, ["Optimize to native ISO 2500"]⟩
    else ⟨iso, false, 0, []⟩

/-- Output of the EV decision block of recommendSettings. -/
structure EvOut where
  ev : ℚ
  conf : ℚ
  reasons : List String
  deriving DecidableEq

/-- EV-compensation branch of recommendSettings (src/focus.cpp,
lines 764-806).  The current EV is converted to integer steps by
truncation (`static_cast<int>(current_ev * 10)`), nudged, clamped on one
side, and converted back by dividing by 10. -/
def evBlock (err clipH : ℚ) (cur : ℚ) : EvOut :=
  let c : ℤ := cTrunc (cur * 10)
  if 60 < err then
    ⟨((max (c - 15) (-96) : ℤ) : ℚ) / 10, 0.5, ["Extremely bright - reduce EV by -1.5 more"]⟩
  else if 40 < err then
    ⟨((max (c - 10) (-96) : ℤ) : ℚ) / 10, 0.4, ["Very bright - reduce EV by -1.0 more"]⟩
  else if 20 < err then
    ⟨((max (c - 7) (-96) : ℤ) : ℚ) / 10, 0.3, ["Bright scene - reduce EV by -0.7 more"]⟩
  else if err < -30 then
    ⟨((min (c + 10) 96 : ℤ) : ℚ) / 10, 0.3, ["Too dark - increase EV by +1.0"]⟩
  else if 3 < clipH then
    ⟨((max (c - 5) (-96) : ℤ) : ℚ) / 10, 0.2, ["Highlight protection - reduce EV by -0.5"]⟩
  else
    ⟨cur, 0, []⟩

/-- Output of the aperture decision block of recommendSettings. -/
structure ApOut where
  ap : String
  conf : ℚ
  reasons : List String
  deriving DecidableEq

/-- One aperture case: the target f-stop is always recommended; the reason
and the confidence bump only fire when it differs from the current one. -/
def apEntry (target : String) (d : ℚ) (r : String) (cur : String) : ApOut :=
  if cur = target then ⟨target, 0, []⟩ else ⟨target, d, [r]⟩

/-- Aperture branch of recommendSettings (src/focus.cpp, lines 808-858),
a pure decision table over mean brightness and the sun-angle factor. -/
def apertureBlock (mean sun : ℚ) (cur : String) : ApOut :=
  if 190 < mean then apEntry "22" 0.4 "Extremely bright - use f/22 to reduce light" cur
  else if 170 < mean then apEntry "18" 0.3 "Very bright - use f/18 for light control" cur
  else if 150 < mean then apEntry "16" 0.2 "Bright daylight - use f/16" cur
  else if 0.7 < sun ∨ 140 < mean then apEntry "11" 0.2 "Bright conditions - use f/11" cur
  else if mean < 80 then apEntry "2.8" 0.3 "Low light - use f/2.8 for more light" cur
  else if mean < 110 then apEntry "4" 0.2 "Moderate light - use f/4" cur
  else apEntry "8" 0.1 "Balanced lighting - use f/8" cur

/-- Output of the shutter-angle decision block of recommendSettings. -/
structure SaOut where
  sa : ℤ
  conf : ℚ
  reasons : List String
  deriving DecidableEq

/-- Shutter-angle branch of recommendSettings (src/focus.cpp, lines 860-881). -/
def shutterBlock (mean sun : ℚ) (cur : ℤ) : SaOut :=
  if 180 < mean then
    if cur ≠ 90 then ⟨90, 0.2, ["Very bright - use 90° shutter to reduce light"]⟩
    else ⟨90, 0, []⟩
  else if 0.6 < sun ∧ 140 < mean then
    if cur ≠ 120 then ⟨120, 0.1, ["Bright conditions - use 120° shutter"]⟩
    else ⟨120, 0, []⟩
  else if mean < 80 then
    if cur ≠ 270 then ⟨270, 0.1, ["Low light - use 270° shutter for more light"]⟩
    else ⟨270, 0, []⟩
  else ⟨180, 0, []⟩

/-- The reasoning string: first reason, then up to two more joined by "; "
(src/focus.cpp, lines 883-892). -/
def joinReasons : List String → String
  | [] => ""
  | r :: rest => (rest.take 2).foldl (fun acc x => acc ++ "; " ++ x) r

/-- The confidence post-processing of recommendSettings (src/focus.cpp,
lines 883-902): raise to at least 0.8 when no change was suggested, scale
by 0.8 in extreme contrast, add 0.1 when the current exposure already
scores above 75, and cap at 1. -/
def confPost (reasonsEmpty : Bool) (contrast score conf0 : ℚ) : ℚ :=
  let c1 := if reasonsEmpty then max 0.8 conf0 else conf0
  let c2 := if contrast < 15 ∨ 80 < contrast then c1 * 0.8 else c1
  let c3 := if 75 < score then c2 + 0.1 else c2
  min 1 c3

/-- recommendSettings (src/focus.cpp, lines 702-905).  Besides the metrics
and the camera state it depends on the wall-clock hour (through
`calculateSunAngleFactor`), and it writes the computed sun factor back into
the camera state; the pair returned is (recommendation, updated state). -/
def recommendSettings (m : ExposureMetrics) (s : CameraState) (hour : ℚ) :
    ZCAMSettings × CameraState :=
  let sun := calculateSunAngleFactor hour
  let err := m.mean_brightness - s.target_brightness
  let i := isoBlock err s.brightness_tolerance s.current_iso
  let e := evBlock err m.clipped_highlights s.current_ev
  let a := apertureBlock m.mean_brightness sun s.current_aperture
  let sa := shutterBlock m.mean_brightness sun s.current_shutter_angle
  let conf0 := 0.5 + i.conf + e.conf + a.conf + sa.conf
  let reasons := i.reasons ++ e.reasons ++ a.reasons ++ sa.reasons
  let reasoning := if reasons = [] then "Current settings optimal for conditions"
                   else joinReasons reasons
  ({ iso := i.iso
     exposure_compensation := e.ev
     aperture := a.ap
     shutter_angle := sa.sa
     reasoning := reasoning
     is_native_iso := i.native
     confidence := confPost reasons.isEmpty m.contrast m.exposure_score conf0 },
   { s with sun_factor := sun })

/-- Model of one HTTP `/ctrl/set` response, as inspected by
applyCameraSetting (src/focus.cpp, lines 1187-1237): the CURL outcome, the
HTTP status code, and the features of the body the code tests for. -/
structure SetResponse where
  curl_ok : Bool
  http_code : ℤ
  parses : Bool
  code_zero : Bool
  result_ok : Bool
  contains_ok : Bool
  deriving DecidableEq

/-- `response.success` of sendHTTPRequest (src/focus.cpp, line 1019):
CURLE_OK and HTTP 200. -/
def httpSuccess (r : SetResponse) : Bool :=
  r.curl_ok && decide (r.http_code = 200)

/-- The `setting_applied` flag of applyCameraSetting (src/focus.cpp,
lines 1196-1212): a parsed body must show `code == 0`, `result == "ok"` or
contain "ok"; an unparseable body with HTTP 200 is assumed applied. -/
def settingApplied (r : SetResponse) : Bool :=
  if r.parses then r.code_zero || r.result_ok || r.contains_ok else true

/-- applyCameraSetting (src/focus.cpp, lines 1187-1237): true exactly when
the HTTP request succeeded and the camera is taken to have applied it. -/
def applyCameraSetting (r : SetResponse) : Bool :=
  httpSuccess r && settingApplied r

/-- One step of applyRecommendations: if the recommendation differs
(`changed`), send the request and update the state on success only. -/
def applyOne (changed : Bool) (r : SetResponse) (upd : CameraState → CameraState)
    (s : CameraState) : CameraState × Bool :=
  if changed then
    if applyCameraSetting r then (upd s, true) else (s, false)
  else (s, false)

/-- First step of applyRecommendations: the ISO change. -/
def stage1 (rec : ZCAMSettings) (s : CameraState) (rIso : SetResponse) :
    CameraState × Bool :=
  applyOne (decide (rec.iso ≠ s.current_iso)) rIso
    (fun t => { t with current_iso := rec.iso }) s

/-- Second step: the EV change, attempted when it differs from the current
EV by more than 0.05. -/
def stage2 (rec : ZCAMSettings) (s : CameraState) (rIso rEv : SetResponse) :
    CameraState × Bool :=
  applyOne (decide (0.05 < |rec.exposure_compensation -
      (stage1 rec s rIso).1.current_ev|)) rEv
    (fun t => { t with current_ev := rec.exposure_compensation })
    (stage1 rec s rIso).1

/-- Third step: the aperture change. -/
def stage3 (rec : ZCAMSettings) (s : CameraState) (rIso rEv rAp : SetResponse) :
    CameraState × Bool :=
  applyOne (decide (rec.aperture ≠ (stage2 rec s rIso rEv).1.current_aperture)) rAp
    (fun t => { t with current_aperture := rec.aperture })
    (stage2 rec s rIso rEv).1

/-- Fourth step: the shutter-angle change. -/
def stage4 (rec : ZCAMSettings) (s : CameraState) (rIso rEv rAp rSa : SetResponse) :
    CameraState × Bool :=
  applyOne (decide (rec.shutter_angle ≠
      (stage3 rec s rIso rEv rAp).1.current_shutter_angle)) rSa
    (fun t => { t with current_shutter_angle := rec.shutter_angle })
    (stage3 rec s rIso rEv rAp).1

/-- The ungated body of applyRecommendations: the four setting changes
attempted in order, with the `any_changes` flag. -/
def applyCore (rec : ZCAMSettings) (s : CameraState)
    (rIso rEv rAp rSa : SetResponse) : CameraState × Bool :=
  ((stage4 rec s rIso rEv rAp rSa).1,
    (stage1 rec s rIso).2 || (stage2 rec s rIso rEv).2 ||
      (stage3 rec s rIso rEv rAp).2 || (stage4 rec s rIso rEv rAp rSa).2)

/-- applyRecommendations (src/focus.cpp, lines 1239-1305): gated on the
auto-adjust flag and the confidence threshold, then the four setting
changes are attempted in order; the Bool returned is the `any_changes`
flag. -/
def applyRecommendations (autoAdj : Bool) (thr : ℚ) (rec : ZCAMSettings)
    (s : CameraState) (rIso rEv rAp rSa : SetResponse) : CameraState × Bool :=
  if !autoAdj then (s, false)
  else if rec.confidence < thr then (s, false)
  else applyCore rec s rIso rEv rAp rSa

/-- A set-parameter call that failed in one of the modes the spec lists:
non-200 or timeout (CURL failure), or a parsed body in which the camera
rejects the value. -/
def failedSet (r : SetResponse) : Prop :=
  httpSuccess r = false ∨
    (r.parses = true ∧ r.code_zero = false ∧ r.result_ok = false ∧ r.contains_ok = false)

/-- Raw RTSP packet as inspected by the stream detector: its stream index,
its byte size, and its leading bytes. -/
structure Packet where
  stream_index : ℕ
  size : ℕ
  data : List ℕ
  deriving DecidableEq

/-- The H.264 candidate test of detectVideoStream (src/ffmpeg_cap.cpp):
a packet larger than 1000 bytes whose first bytes are an Annex-B start
code (00 00 00 01 or 00 00 01). -/
def nalCandidate (p : Packet) : Bool :=
  decide (1000 < p.size) && decide (4 ≤ p.size) &&
    (decide (p.data.take 4 = [0, 0, 0, 1]) || decide (p.data.take 3 = [0, 0, 1]))

/-- Per-stream byte accumulation: `stream_sizes[idx] += size` for packets
whose stream index is in range. -/
def bumpSize (szs : List ℕ) (p : Packet) : List ℕ :=
  if p.stream_index < szs.length then
    szs.set p.stream_index (szs.getD p.stream_index 0 + p.size)
  else szs

/-- State of the packet-scanning loop of detectVideoStream: the per-stream
byte totals and the video stream found so far (if any). -/
structure DetState where
  sizes : List ℕ
  found : Option ℕ
  deriving DecidableEq

/-- One iteration of the packet loop of detectVideoStream
(src/ffmpeg_cap.cpp): accumulate the packet size for its stream and, when
no video stream has been identified yet and the packet qualifies, record
its stream as the video stream. -/
def detStep (st : DetState) (p : Packet) : DetState :=
  if p.stream_index < st.sizes.length then
    { sizes := bumpSize st.sizes p
      found := match st.found with
               | some v => some v
               | none => if nalCandidate p then some p.stream_index else none }
  else st

/-- The per-stream byte totals accumulated over a packet list, starting
from `nb` zero counters. -/
def streamSizes (nb : ℕ) (pkts : List Packet) : List ℕ :=
  pkts.foldl bumpSize (List.replicate nb 0)

/-- detectVideoStream (src/ffmpeg_cap.cpp, lines ~420-524): scan up to 30
packets for an H.264 NAL start code in a large packet; if none is found,
fall back to the first stream whose accumulated byte count exceeds 50000
bytes; otherwise report no stream (`none` = abort). -/
def detectVideoStream (nb : ℕ) (pkts : List Packet) : Option ℕ :=
  let st := (pkts.take 30).foldl detStep ⟨List.replicate nb 0, none⟩
  match st.found with
  | some v => some v
  | none => (List.range nb).find? (fun i => decide (50000 < st.sizes.getD i 0))

/-- BT.601 luma of one RGB pixel, `(uint8_t)(0.299 r + 0.587 g + 0.114 b)`
(src/focus.cpp, line 390), in exact decimal arithmetic: the weights sum to
1000/1000, and the cast truncates. -/
def grayOf (r g b : ℕ) : ℕ :=
  (299 * r + 587 * g + 114 * b) / 1000

/-- The analyzed rectangle inside the frame. -/
structure Region where
  x : ℤ
  y : ℤ
  w : ℤ
  h : ℤ
  deriving DecidableEq

/-- Crop-selection and clamping of analyzeExposureAndFocus (src/focus.cpp,
lines 350-360): a non-positive crop width/height selects the full frame,
then the origin is clamped into the frame and the extent shrunk to fit. -/
def clampRegion (width height cx cy cw ch : ℤ) : Region :=
  let ax := if 0 < cw then cx else 0
  let ay := if 0 < ch then cy else 0
  let aw := if 0 < cw then cw else width
  let ah := if 0 < ch then ch else height
  let ax := max 0 (min ax (width - 1))
  let ay := max 0 (min ay (height - 1))
  { x := ax, y := ay, w := min aw (width - ax), h := min ah (height - ay) }

/-- The flat RGB24 buffer index of analyzed pixel (x, y) of the region at
(ax, ay): `((src_y * width + src_x) * 3)` (src/focus.cpp, line 383). -/
def pixelIndex (w ax ay x y : ℕ) : ℕ :=
  ((ay + y) * w + (ax + x)) * 3

/-- The luma of the analyzed pixel (x, y), read from the flat buffer. -/
def grayAt (rgb : List ℕ) (w ax ay x y : ℕ) : ℕ :=
  grayOf (rgb.getD (pixelIndex w ax ay x y) 0)
         (rgb.getD (pixelIndex w ax ay x y + 1) 0)
         (rgb.getD (pixelIndex w ax ay x y + 2) 0)

/-- The `gray_data` list built by the pixel loop of analyzeExposureAndFocus
(src/focus.cpp, lines 379-408): row-major over the clamped region, each
pixel contributing its luma only when the guarded read
`pixel_idx + 2 < rgb_data.size()` is in bounds. -/
def grayData (rgb : List ℕ) (w ax ay aw ah : ℕ) : List ℕ :=
  (List.range ah).flatMap fun y =>
    (List.range aw).filterMap fun x =>
      if pixelIndex w ax ay x y + 2 < rgb.length then
        some (grayAt rgb w ax ay x y)
      else none

/-- The exposure statistics of one analyzed frame (the rational-valued
fields of ExposureMetrics; the contrast is the square root of
`variance`, taken in `contrastOf`). -/
structure StatsOut where
  total : ℕ
  mean : ℚ
  variance : ℚ
  clipH : ℚ
  clipS : ℚ
  shP : ℚ
  midP : ℚ
  hiP : ℚ
  satur : ℚ
  dynR : ℚ
  deriving DecidableEq

/-- The all-zero statistics record (a default-constructed ExposureMetrics). -/
def StatsOut.zero : StatsOut :=
  ⟨0, 0, 0, 0, 0, 0, 0, 0, 0, 0⟩

/-- The statistics computed from the luma list by analyzeExposureAndFocus
(src/focus.cpp, lines 394-435): sums and counts over the gathered pixels,
divided by `total_pixels = analyze_w * analyze_h`; thresholds 250/5 for
clipping, 85/170 for the tonal bands, 240/15 for near-saturation; the
dynamic range is the maximum luma minus the first luma exceeding 5. -/
def statsOfGray (g : List ℕ) (N : ℕ) : StatsOut :=
  if 0 < N then
    let n : ℚ := N
    let mean : ℚ := (g.sum : ℚ) / n
    { total := N
      mean := mean
      variance := (((g.map fun v => v ^ 2).sum : ℕ) : ℚ) / n - mean ^ 2
      clipH := ((g.countP fun v => decide (250 ≤ v)) : ℚ) * 100 / n
      clipS := ((g.countP fun v => decide (v ≤ 5)) : ℚ) * 100 / n
      shP := ((g.countP fun v => decide (v < 85)) : ℚ) * 100 / n
      midP := ((g.countP fun v => decide (85 ≤ v) && decide (v < 170)) : ℚ) * 100 / n
      hiP := ((g.countP fun v => decide (170 ≤ v)) : ℚ) * 100 / n
      satur := max (((g.countP fun v => decide (240 ≤ v)) : ℚ) * 100 / n)
                   (((g.countP fun v => decide (v ≤ 15)) : ℚ) * 100 / n)
      dynR := match g.find? (fun v => decide (5 < v)), g.max? with
              | some lo, some hi => (hi : ℚ) - (lo : ℚ)
              | _, _ => 0 }
  else StatsOut.zero

/-- The exposure-statistics part of analyzeExposureAndFocus (src/focus.cpp,
lines 342-442): empty or degenerate frames yield the zero metrics, else the
crop is clamped and the guarded pixel loop feeds `statsOfGray`. -/
def analyzeExposure (rgb : List ℕ) (width height cx cy cw ch : ℤ) : StatsOut :=
  if rgb = [] ∨ width ≤ 0 ∨ height ≤ 0 then StatsOut.zero
  else
    let r := clampRegion width height cx cy cw ch
    statsOfGray (grayData rgb width.toNat r.x.toNat r.y.toNat r.w.toNat r.h.toNat)
      (r.w.toNat * r.h.toNat)

/-- `metrics.contrast`: the standard deviation
`sqrt(max(0, variance))` (src/focus.cpp, line 414). -/
noncomputable def contrastOf (st : StatsOut) : ℝ :=
  Real.sqrt (max 0 st.variance)

/-- calculateExposureScore (src/focus.cpp, lines 510-549), with the
monitor's weighting: brightness-deviation penalty capped at 40, clipping
penalties of 3.0 and 2.5 per percent, low/high-contrast penalties,
dynamic-range penalty, tonal-distribution penalties against the 20/60/20
ideal, saturation penalty, clamped into [0, 100]. -/
noncomputable def calculateExposureScore (target : ℚ) (st : StatsOut) : ℝ :=
  let contrast : ℝ := contrastOf st
  let s1 : ℝ := 100 - min (|(st.mean : ℝ) - (target : ℚ)| * 1.5) 40
  let s2 : ℝ := s1 - (st.clipH : ℝ) * 3 - (st.clipS : ℝ) * 2.5
  let s3 : ℝ := if contrast < 25 then s2 - (25 - contrast) * 0.8
                else if 75 < contrast then s2 - (contrast - 75) * 0.4
                else s2
  let s4 : ℝ := if (st.dynR : ℝ) < 180 then s3 - (180 - (st.dynR : ℝ)) * 0.3 else s3
  let s5 : ℝ := s4 - |(st.shP : ℝ) - 20| * 0.2 - |(st.midP : ℝ) - 60| * 0.1
                  - |(st.hiP : ℝ) - 20| * 0.2
  let s6 : ℝ := if 10 < (st.satur : ℝ) then s5 - ((st.satur : ℝ) - 10) * 1.5 else s5
  max 0 (min 100 s6)

/-- One cell of the grayscale matrix built for focus analysis
(`gray_matrix[y][x]`), as an integer. -/
def cellAt (m : List (List ℕ)) (x y : ℕ) : ℤ :=
  ((m.getD y []).getD x 0 : ℕ)

/-- The Laplacian response `4 c(x,y) - c(x,y-1) - c(x,y+1) - c(x-1,y) -
c(x+1,y)` (src/focus.cpp, lines 463-466). -/
def lapAt (m : List (List ℕ)) (x y : ℕ) : ℤ :=
  4 * cellAt m x y - cellAt m x (y - 1) - cellAt m x (y + 1)
    - cellAt m (x - 1) y - cellAt m (x + 1) y

/-- The horizontal Sobel response (src/focus.cpp, lines 471-473). -/
def gxAt (m : List (List ℕ)) (x y : ℕ) : ℤ :=
  -cellAt m (x - 1) (y - 1) + cellAt m (x + 1) (y - 1)
    - 2 * cellAt m (x - 1) y + 2 * cellAt m (x + 1) y
    - cellAt m (x - 1) (y + 1) + cellAt m (x + 1) (y + 1)

/-- The vertical Sobel response (src/focus.cpp, lines 475-476). -/
def gyAt (m : List (List ℕ)) (x y : ℕ) : ℤ :=
  -cellAt m (x - 1) (y - 1) - 2 * cellAt m x (y - 1) - cellAt m (x + 1) (y - 1)
    + cellAt m (x - 1) (y + 1) + 2 * cellAt m x (y + 1) + cellAt m (x + 1) (y + 1)

/-- The 3x3 neighbourhood average of a cell (src/focus.cpp, lines 482-484). -/
def localAvgAt (m : List (List ℕ)) (x y : ℕ) : ℚ :=
  ((cellAt m (x - 1) (y - 1) + cellAt m x (y - 1) + cellAt m (x + 1) (y - 1)
    + cellAt m (x - 1) y + cellAt m x y + cellAt m (x + 1) y
    + cellAt m (x - 1) (y + 1) + cellAt m x (y + 1) + cellAt m (x + 1) (y + 1) : ℤ) : ℚ) / 9

/-- The interior pixels visited by the focus loops:
x in [1, w-2], y in [1, h-2], row-major. -/
def interior (w h : ℕ) : List (ℕ × ℕ) :=
  (List.range (h - 2)).flatMap fun y =>
    (List.range (w - 2)).map fun x => (x + 1, y + 1)

/-- Sum of squared Laplacian responses over the interior. -/
def lapSum (m : List (List ℕ)) (w h : ℕ) : ℚ :=
  ((interior w h).map fun p => ((lapAt m p.1 p.2 : ℚ) ^ 2)).sum

/-- Sum of Sobel edge magnitudes `sqrt(gx^2 + gy^2)` over the interior. -/
noncomputable def edgeSum (m : List (List ℕ)) (w h : ℕ) : ℝ :=
  ((interior w h).map fun p =>
    Real.sqrt (((gxAt m p.1 p.2 : ℝ) ^ 2 + (gyAt m p.1 p.2 : ℝ) ^ 2))).sum

/-- Sum of absolute deviations from the local 3x3 average over the
interior. -/
def hfSum (m : List (List ℕ)) (w h : ℕ) : ℚ :=
  ((interior w h).map fun p => |(cellAt m p.1 p.2 : ℚ) - localAvgAt m p.1 p.2|).sum

/-- The focus metrics (focus fields of ExposureMetrics). -/
structure FocusOut where
  sharpness : ℚ
  edge : ℝ
  hf : ℚ
  score : ℝ

/-- calculateFocusMetrics (src/focus.cpp, lines 450-508).  Regions thinner
than 3 pixels keep the zero defaults; otherwise the three responses are
averaged over the `(w-2)*(h-2)` interior pixels, normalized against
500 / 50 / 20, capped at 1, and combined 0.5/0.3/0.2 into a 0-100 score. -/
noncomputable def calculateFocusMetrics (m : List (List ℕ)) (w h : ℕ) : FocusOut :=
  if w < 3 ∨ h < 3 then ⟨0, 0, 0, 0⟩
  else if 0 < (w - 2) * (h - 2) then
    let valid : ℚ := ((w - 2) * (h - 2) : ℕ)
    let sh : ℚ := lapSum m w h / valid
    let ed : ℝ := edgeSum m w h / ((valid : ℚ) : ℝ)
    let hf : ℚ := hfSum m w h / valid
    ⟨sh, ed, hf,
      ((min (sh / 500) 1 : ℚ) * 0.5 + min (ed / 50) 1 * 0.3
        + ((min (hf / 20) 1 : ℚ) : ℝ) * 0.2) * 100⟩
  else ⟨0, 0, 0, 0⟩

/-! ## Projection lemmas for the advisor -/

/-- The ISO field of the recommendation is the output of the ISO block. -/
theorem recommend_iso (m : ExposureMetrics) (s : CameraState) (hour : ℚ) :
    (recommendSettings m s hour).1.iso =
      (isoBlock (m.mean_brightness - s.target_brightness) s.brightness_tolerance
        s.current_iso).iso := rfl

/-- The native-ISO flag of the recommendation comes from the ISO block. -/
theorem recommend_native (m : ExposureMetrics) (s : CameraState) (hour : ℚ) :
    (recommendSettings m s hour).1.is_native_iso =
      (isoBlock (m.mean_brightness - s.target_brightness) s.brightness_tolerance
        s.current_iso).native := rfl

/-- The EV field of the recommendation is the output of the EV block. -/
theorem recommend_ev (m : ExposureMetrics) (s : CameraState) (hour : ℚ) :
    (recommendSettings m s hour).1.exposure_compensation =
      (evBlock (m.mean_brightness - s.target_brightness) m.clipped_highlights
        s.current_ev).ev := rfl

/-- The aperture field of the recommendation is the output of the aperture
block, which depends only on mean brightness, the sun factor and the
current aperture. -/
theorem recommend_aperture (m : ExposureMetrics) (s : CameraState) (hour : ℚ) :
    (recommendSettings m s hour).1.aperture =
      (apertureBlock m.mean_brightness (calculateSunAngleFactor hour)
        s.current_aperture).ap := rfl

/-- The shutter-angle field of the recommendation is the output of the
shutter block. -/
theorem recommend_shutter (m : ExposureMetrics) (s : CameraState) (hour : ℚ) :
    (recommendSettings m s hour).1.shutter_angle =
      (shutterBlock m.mean_brightness (calculateSunAngleFactor hour)
        s.current_shutter_angle).sa := rfl

/-- The confidence field of the recommendation in terms of `confPost`. -/
theorem recommend_confidence (m : ExposureMetrics) (s : CameraState) (hour : ℚ) :
    (recommendSettings m s hour).1.confidence =
      confPost (((isoBlock (m.mean_brightness - s.target_brightness)
            s.brightness_tolerance s.current_iso).reasons ++
          (evBlock (m.mean_brightness - s.target_brightness) m.clipped_highlights
            s.current_ev).reasons ++
          (apertureBlock m.mean_brightness (calculateSunAngleFactor hour)
            s.current_aperture).reasons ++
          (shutterBlock m.mean_brightness (calculateSunAngleFactor hour)
            s.current_shutter_angle).reasons).isEmpty)
        m.contrast m.exposure_score
        (0.5 + (isoBlock (m.mean_brightness - s.target_brightness)
            s.brightness_tolerance s.current_iso).conf +
          (evBlock (m.mean_brightness - s.target_brightness) m.clipped_highlights
            s.current_ev).conf +
          (apertureBlock m.mean_brightness (calculateSunAngleFactor hour)
            s.current_aperture).conf +
          (shutterBlock m.mean_brightness (calculateSunAngleFactor hour)
            s.current_shutter_angle).conf) := rfl

/-! ## Confidence bounds -/

/-- The ISO block never subtracts confidence. -/
theorem isoBlock_conf_nonneg (err tol : ℚ) (iso : ℤ) :
    0 ≤ (isoBlock err tol iso).conf := by
  unfold isoBlock
  split_ifs <;> norm_num

/-- The EV block never subtracts confidence. -/
theorem evBlock_conf_nonneg (err clipH cur : ℚ) :
    0 ≤ (evBlock err clipH cur).conf := by
  unfold evBlock
  split_ifs <;> norm_num

/-- The aperture block never subtracts confidence. -/
theorem apertureBlock_conf_nonneg (mean sun : ℚ) (cur : String) :
    0 ≤ (apertureBlock mean sun cur).conf := by
  unfold apertureBlock apEntry
  split_ifs <;> norm_num

/-- The shutter block never subtracts confidence. -/
theorem shutterBlock_conf_nonneg (mean sun : ℚ) (cur : ℤ) :
    0 ≤ (shutterBlock mean sun cur).conf := by
  unfold shutterBlock
  split_ifs <;> norm_num

/-- The confidence post-processing maps a nonnegative raw confidence into
[0, 1]. -/
theorem confPost_mem_unit (b : Bool) (ct sc c0 : ℚ) (h0 : 0 ≤ c0) :
    0 ≤ confPost b ct sc c0 ∧ confPost b ct sc c0 ≤ 1 := by
  unfold confPost
  set A := (if b = true then max 0.8 c0 else c0) with hA
  have h1 : 0 ≤ A := by
    rw [hA]
    split_ifs
    · exact le_trans (by norm_num) (le_max_left _ _)
    · exact h0
  set B := (if ct < 15 ∨ 80 < ct then A * 0.8 else A) with hB
  have h2 : 0 ≤ B := by
    rw [hB]
    split_ifs
    · exact mul_nonneg h1 (by norm_num)
    · exact h1
  refine ⟨le_min (by norm_num) ?_, min_le_left _ _⟩
  split_ifs <;> linarith

/-- C5: for every metrics input, including pathological ones, and every
camera state and hour, the confidence of the returned recommendation lies
in [0, 1]. -/
theorem C5_confidence_in_unit_interval (m : ExposureMetrics) (s : CameraState)
    (hour : ℚ) :
    0 ≤ (recommendSettings m s hour).1.confidence ∧
      (recommendSettings m s hour).1.confidence ≤ 1 := by
  rw [recommend_confidence]
  refine confPost_mem_unit _ _ _ _ ?_
  have h1 := isoBlock_conf_nonneg (m.mean_brightness - s.target_brightness)
    s.brightness_tolerance s.current_iso
  have h2 := evBlock_conf_nonneg (m.mean_brightness - s.target_brightness)
    m.clipped_highlights s.current_ev
  have h3 := apertureBlock_conf_nonneg m.mean_brightness
    (calculateSunAngleFactor hour) s.current_aperture
  have h4 := shutterBlock_conf_nonneg m.mean_brightness
    (calculateSunAngleFactor hour) s.current_shutter_angle
  linarith

/-! ## ISO and aperture policy (C2) -/

/-- C2 (amended): when mean brightness is below target by more than the
tolerance band and the current ISO is the low native value 500, the
recommendation steps ISO to the high native value 2500 (flagged native);
the aperture recommendation, however, is not deferred until the ISO range
is exhausted: it is computed in the same call by the independent
brightness / sun-factor aperture table. -/
theorem C2_iso_steps_to_high_native (m : ExposureMetrics) (s : CameraState)
    (hour : ℚ)
    (hdark : m.mean_brightness - s.target_brightness < -s.brightness_tolerance)
    (hiso : s.current_iso = 500) :
    (recommendSettings m s hour).1.iso = 2500 ∧
      (recommendSettings m s hour).1.is_native_iso = true ∧
      (recommendSettings m s hour).1.aperture =
        (apertureBlock m.mean_brightness (calculateSunAngleFactor hour)
          s.current_aperture).ap := by
  rw [recommend_iso, recommend_native, recommend_aperture]
  unfold isoBlock
  rw [if_pos hdark, hiso, if_pos (by norm_num : (500 : ℤ) ≤ 500)]
  exact ⟨rfl, rfl, rfl⟩

/-- Witness for C2: a dark frame (mean 50 against target 128, tolerance
15) at ISO 500 yields ISO 2500. -/
theorem C2_iso_steps_to_high_native_witness :
    ((⟨50, 50, 0, 0, 0⟩ : ExposureMetrics).mean_brightness -
        CameraState.initial.target_brightness <
        -CameraState.initial.brightness_tolerance ∧
      CameraState.initial.current_iso = 500) ∧
      (recommendSettings ⟨50, 50, 0, 0, 0⟩ CameraState.initial 2).1.iso = 2500 :=
  ⟨⟨by norm_num [CameraState.initial], by norm_num [CameraState.initial]⟩,
    (C2_iso_steps_to_high_native ⟨50, 50, 0, 0, 0⟩ CameraState.initial 2
      (by norm_num [CameraState.initial])
      (by norm_num [CameraState.initial])).1⟩

/-- Counterexample to C2 as stated: on a dark frame (mean 50) at the low
native ISO 500 with current aperture f/5.6, the very same recommendation
that steps ISO to 2500 also recommends an aperture change (to f/2.8),
although the ISO range is not exhausted. -/
theorem C2_counterexample_aperture_changes_with_iso :
    (recommendSettings ⟨50, 50, 0, 0, 0⟩ CameraState.initial 2).1.iso = 2500 ∧
      (recommendSettings ⟨50, 50, 0, 0, 0⟩ CameraState.initial 2).1.aperture = "2.8" ∧
      CameraState.initial.current_aperture = "5.6" := by
  refine ⟨?_, ?_, rfl⟩
  · rw [recommend_iso]
    norm_num [CameraState.initial, isoBlock]
  · rw [recommend_aperture]
    norm_num [CameraState.initial, apertureBlock, apEntry, calculateSunAngleFactor]
    split_ifs <;> rfl

/-! ## Purity of recommendSettings (C3) -/

/-- C3 (amended): recommendSettings is a function of the metrics, the
camera state and the wall-clock hour; its only effect on the camera state
is to overwrite `sun_factor` with the freshly computed sun-angle factor,
every other state field being returned unchanged. -/
theorem C3_state_effect_is_sun_factor (m : ExposureMetrics) (s : CameraState)
    (hour : ℚ) :
    (recommendSettings m s hour).2.current_iso = s.current_iso ∧
      (recommendSettings m s hour).2.current_ev = s.current_ev ∧
      (recommendSettings m s hour).2.current_aperture = s.current_aperture ∧
      (recommendSettings m s hour).2.current_shutter_angle = s.current_shutter_angle ∧
      (recommendSettings m s hour).2.scene_type = s.scene_type ∧
      (recommendSettings m s hour).2.target_brightness = s.target_brightness ∧
      (recommendSettings m s hour).2.brightness_tolerance = s.brightness_tolerance ∧
      (recommendSettings m s hour).2.sun_factor = calculateSunAngleFactor hour :=
  ⟨rfl, rfl, rfl, rfl, rfl, rfl, rfl, rfl⟩

/-- Counterexample to C3 as stated: with identical metrics and identical
camera state, calling the advisor at 13:00 and at 02:00 returns different
recommendations (shutter angle 120° versus 180°), and the 13:00 call
mutates the camera state (sun_factor 0.5 becomes 1). -/
theorem C3_counterexample_time_dependence :
    (recommendSettings ⟨150, 50, 0, 0, 0⟩ CameraState.initial 13).1.shutter_angle ≠
      (recommendSettings ⟨150, 50, 0, 0, 0⟩ CameraState.initial 2).1.shutter_angle ∧
      (recommendSettings ⟨150, 50, 0, 0, 0⟩ CameraState.initial 13).2 ≠
        CameraState.initial := by
  have hsun13 : calculateSunAngleFactor 13 = 1 := by
    norm_num [calculateSunAngleFactor]
  have hsun2 : calculateSunAngleFactor 2 = 0.1 := by
    norm_num [calculateSunAngleFactor]
  constructor
  · rw [recommend_shutter, recommend_shutter, hsun13, hsun2]
    norm_num [CameraState.initial, shutterBlock]
  · intro h
    have hs : (recommendSettings ⟨150, 50, 0, 0, 0⟩ CameraState.initial
        13).2.sun_factor = calculateSunAngleFactor 13 := rfl
    rw [h, hsun13] at hs
    norm_num [CameraState.initial] at hs

/-! ## EV step clamping (C10) -/

/-- Truncation toward zero is the identity on integer steps scaled back
up: `cTrunc ((k / 10) * 10) = k`. -/
theorem cTrunc_tenth (k : ℤ) : cTrunc (((k : ℚ) / 10) * 10) = k := by
  have h : ((k : ℚ) / 10) * 10 = (k : ℚ) := by ring
  rw [h]
  unfold cTrunc
  split_ifs
  · exact Int.floor_intCast k
  · exact Int.ceil_intCast k

/-- C10 (amended): provided the current EV step value is already within
the camera's range [-96, 96], every branch of recommendSettings leaves the
recommended EV step value within [-96, 96]; each changing branch clamps
only on the side it moves toward, so the hypothesis is needed. -/
theorem C10_ev_steps_within_range (m : ExposureMetrics) (s : CameraState)
    (hour : ℚ) (h1 : -96 ≤ cTrunc (s.current_ev * 10))
    (h2 : cTrunc (s.current_ev * 10) ≤ 96) :
    -96 ≤ cTrunc ((recommendSettings m s hour).1.exposure_compensation * 10) ∧
      cTrunc ((recommendSettings m s hour).1.exposure_compensation * 10) ≤ 96 := by
  rw [recommend_ev]
  unfold evBlock
  split_ifs <;> simp only [cTrunc_tenth] <;> constructor <;> omega

/-- Witness for C10: current EV 0 (steps 0, within range) and a very
bright frame (mean 198) give a recommended step value within [-96, 96]. -/
theorem C10_ev_steps_within_range_witness :
    (-96 ≤ cTrunc (CameraState.initial.current_ev * 10) ∧
        cTrunc (CameraState.initial.current_ev * 10) ≤ 96) ∧
      -96 ≤ cTrunc ((recommendSettings ⟨198, 50, 0, 0, 0⟩ CameraState.initial
          2).1.exposure_compensation * 10) :=
  ⟨⟨by norm_num [CameraState.initial, cTrunc],
    by norm_num [CameraState.initial, cTrunc]⟩,
    (C10_ev_steps_within_range ⟨198, 50, 0, 0, 0⟩ CameraState.initial 2
      (by norm_num [CameraState.initial, cTrunc])
      (by norm_num [CameraState.initial, cTrunc])).1⟩

/-- Counterexample to C10 as stated: with current EV 20.0 (steps 200,
outside the camera range) and a very bright frame, the "extremely bright"
branch recommends EV 18.5, i.e. step value 185, outside [-96, 96]: the
branch only clamps at the lower end. -/
theorem C10_counterexample_steps_out_of_range :
    cTrunc ((recommendSettings ⟨198, 50, 0, 0, 0⟩
        { CameraState.initial with current_ev := 20 } 2).1.exposure_compensation
        * 10) = 185 ∧ (96 : ℤ) < 185 := by
  have hc : cTrunc ((20 : ℚ) * 10) = 200 := by norm_num [cTrunc]
  have hmax : max ((200 : ℤ) - 15) (-96) = 185 := by
    rw [max_eq_left (by norm_num : (-96 : ℤ) ≤ 200 - 15)]
    norm_num
  have hev : (recommendSettings ⟨198, 50, 0, 0, 0⟩
      { CameraState.initial with current_ev := 20 } 2).1.exposure_compensation =
      ((185 : ℤ) : ℚ) / 10 := by
    rw [recommend_ev]
    show (evBlock ((198 : ℚ) - 128) 0 20).ev = ((185 : ℤ) : ℚ) / 10
    simp only [evBlock]
    rw [if_pos (by norm_num : (60 : ℚ) < 198 - 128), hc, hmax]
  rw [hev, cTrunc_tenth]
  norm_num

/-! ## HTTP setting application (C8) -/

/-- A failed set-parameter call is never reported applied. -/
theorem applyCameraSetting_of_failed (r : SetResponse) (h : failedSet r) :
    applyCameraSetting r = false := by
  rcases h with h | ⟨hp, h0, h1, h2⟩
  · simp [applyCameraSetting, h]
  · simp [applyCameraSetting, settingApplied, hp, h0, h1, h2]

/-- The ISO step leaves the EV field alone. -/
theorem stage1_keeps_ev (rec : ZCAMSettings) (s : CameraState) (r : SetResponse) :
    (stage1 rec s r).1.current_ev = s.current_ev := by
  unfold stage1 applyOne
  split_ifs <;> rfl

/-- The ISO step leaves the aperture field alone. -/
theorem stage1_keeps_ap (rec : ZCAMSettings) (s : CameraState) (r : SetResponse) :
    (stage1 rec s r).1.current_aperture = s.current_aperture := by
  unfold stage1 applyOne
  split_ifs <;> rfl

/-- The ISO step leaves the shutter-angle field alone. -/
theorem stage1_keeps_sa (rec : ZCAMSettings) (s : CameraState) (r : SetResponse) :
    (stage1 rec s r).1.current_shutter_angle = s.current_shutter_angle := by
  unfold stage1 applyOne
  split_ifs <;> rfl

/-- The EV step leaves the ISO field alone. -/
theorem stage2_keeps_iso (rec : ZCAMSettings) (s : CameraState) (r1 r2 : SetResponse) :
    (stage2 rec s r1 r2).1.current_iso = (stage1 rec s r1).1.current_iso := by
  unfold stage2 applyOne
  split_ifs <;> rfl

/-- The EV step leaves the aperture field alone. -/
theorem stage2_keeps_ap (rec : ZCAMSettings) (s : CameraState) (r1 r2 : SetResponse) :
    (stage2 rec s r1 r2).1.current_aperture = (stage1 rec s r1).1.current_aperture := by
  unfold stage2 applyOne
  split_ifs <;> rfl

/-- The EV step leaves the shutter-angle field alone. -/
theorem stage2_keeps_sa (rec : ZCAMSettings) (s : CameraState) (r1 r2 : SetResponse) :
    (stage2 rec s r1 r2).1.current_shutter_angle =
      (stage1 rec s r1).1.current_shutter_angle := by
  unfold stage2 applyOne
  split_ifs <;> rfl

/-- The aperture step leaves the ISO field alone. -/
theorem stage3_keeps_iso (rec : ZCAMSettings) (s : CameraState)
    (r1 r2 r3 : SetResponse) :
    (stage3 rec s r1 r2 r3).1.current_iso = (stage2 rec s r1 r2).1.current_iso := by
  unfold stage3 applyOne
  split_ifs <;> rfl

/-- The aperture step leaves the EV field alone. -/
theorem stage3_keeps_ev (rec : ZCAMSettings) (s : CameraState)
    (r1 r2 r3 : SetResponse) :
    (stage3 rec s r1 r2 r3).1.current_ev = (stage2 rec s r1 r2).1.current_ev := by
  unfold stage3 applyOne
  split_ifs <;> rfl

/-- The aperture step leaves the shutter-angle field alone. -/
theorem stage3_keeps_sa (rec : ZCAMSettings) (s : CameraState)
    (r1 r2 r3 : SetResponse) :
    (stage3 rec s r1 r2 r3).1.current_shutter_angle =
      (stage2 rec s r1 r2).1.current_shutter_angle := by
  unfold stage3 applyOne
  split_ifs <;> rfl

/-- The shutter step leaves the ISO field alone. -/
theorem stage4_keeps_iso (rec : ZCAMSettings) (s : CameraState)
    (r1 r2 r3 r4 : SetResponse) :
    (stage4 rec s r1 r2 r3 r4).1.current_iso =
      (stage3 rec s r1 r2 r3).1.current_iso := by
  unfold stage4 applyOne
  split_ifs <;> rfl

/-- The shutter step leaves the EV field alone. -/
theorem stage4_keeps_ev (rec : ZCAMSettings) (s : CameraState)
    (r1 r2 r3 r4 : SetResponse) :
    (stage4 rec s r1 r2 r3 r4).1.current_ev =
      (stage3 rec s r1 r2 r3).1.current_ev := by
  unfold stage4 applyOne
  split_ifs <;> rfl

/-- The shutter step leaves the aperture field alone. -/
theorem stage4_keeps_ap (rec : ZCAMSettings) (s : CameraState)
    (r1 r2 r3 r4 : SetResponse) :
    (stage4 rec s r1 r2 r3 r4).1.current_aperture =
      (stage3 rec s r1 r2 r3).1.current_aperture := by
  unfold stage4 applyOne
  split_ifs <;> rfl

/-- A failed ISO request leaves the state of stage 1 untouched. -/
theorem stage1_failed (rec : ZCAMSettings) (s : CameraState) (r : SetResponse)
    (h : applyCameraSetting r = false) : (stage1 rec s r).1 = s := by
  unfold stage1 applyOne
  split_ifs <;> first | rfl | simp_all

/-- A failed EV request leaves the state of stage 2 untouched. -/
theorem stage2_failed (rec : ZCAMSettings) (s : CameraState) (r1 r2 : SetResponse)
    (h : applyCameraSetting r2 = false) :
    (stage2 rec s r1 r2).1 = (stage1 rec s r1).1 := by
  unfold stage2 applyOne
  split_ifs <;> first | rfl | simp_all

/-- A failed aperture request leaves the state of stage 3 untouched. -/
theorem stage3_failed (rec : ZCAMSettings) (s : CameraState) (r1 r2 r3 : SetResponse)
    (h : applyCameraSetting r3 = false) :
    (stage3 rec s r1 r2 r3).1 = (stage2 rec s r1 r2).1 := by
  unfold stage3 applyOne
  split_ifs <;> first | rfl | simp_all

/-- A failed shutter request leaves the state of stage 4 untouched. -/
theorem stage4_failed (rec : ZCAMSettings) (s : CameraState)
    (r1 r2 r3 r4 : SetResponse) (h : applyCameraSetting r4 = false) :
    (stage4 rec s r1 r2 r3 r4).1 = (stage3 rec s r1 r2 r3).1 := by
  unfold stage4 applyOne
  split_ifs <;> first | rfl | simp_all

/-- Only a successful ISO request can change the ISO field. -/
theorem stage1_changed (rec : ZCAMSettings) (s : CameraState) (r : SetResponse)
    (h : (stage1 rec s r).1.current_iso ≠ s.current_iso) :
    applyCameraSetting r = true := by
  unfold stage1 applyOne at h
  split_ifs at h <;> first | assumption | exact absurd rfl h

/-- Only a successful EV request can change the EV field. -/
theorem stage2_changed (rec : ZCAMSettings) (s : CameraState) (r1 r2 : SetResponse)
    (h : (stage2 rec s r1 r2).1.current_ev ≠ (stage1 rec s r1).1.current_ev) :
    applyCameraSetting r2 = true := by
  unfold stage2 applyOne at h
  split_ifs at h <;> first | assumption | exact absurd rfl h

/-- Only a successful aperture request can change the aperture field. -/
theorem stage3_changed (rec : ZCAMSettings) (s : CameraState) (r1 r2 r3 : SetResponse)
    (h : (stage3 rec s r1 r2 r3).1.current_aperture ≠
      (stage2 rec s r1 r2).1.current_aperture) :
    applyCameraSetting r3 = true := by
  unfold stage3 applyOne at h
  split_ifs at h <;> first | assumption | exact absurd rfl h

/-- Only a successful shutter request can change the shutter-angle field. -/
theorem stage4_changed (rec : ZCAMSettings) (s : CameraState)
    (r1 r2 r3 r4 : SetResponse)
    (h : (stage4 rec s r1 r2 r3 r4).1.current_shutter_angle ≠
      (stage3 rec s r1 r2 r3).1.current_shutter_angle) :
    applyCameraSetting r4 = true := by
  unfold stage4 applyOne at h
  split_ifs at h <;> first | assumption | exact absurd rfl h

/-- C8: when a set-parameter call fails (non-200 / timeout / camera
rejection), the corresponding in-memory current-settings field is left
unchanged, and a field changes only when its own request was reported
successfully applied. -/
theorem C8_settings_updated_only_on_success (autoAdj : Bool) (thr : ℚ)
    (rec : ZCAMSettings) (s : CameraState) (rIso rEv rAp rSa : SetResponse) :
    (failedSet rIso →
      (applyRecommendations autoAdj thr rec s rIso rEv rAp rSa).1.current_iso =
        s.current_iso) ∧
    (failedSet rEv →
      (applyRecommendations autoAdj thr rec s rIso rEv rAp rSa).1.current_ev =
        s.current_ev) ∧
    (failedSet rAp →
      (applyRecommendations autoAdj thr rec s rIso rEv rAp rSa).1.current_aperture =
        s.current_aperture) ∧
    (failedSet rSa →
      (applyRecommendations autoAdj thr rec s rIso rEv rAp rSa).1.current_shutter_angle =
        s.current_shutter_angle) ∧
    ((applyRecommendations autoAdj thr rec s rIso rEv rAp rSa).1.current_iso ≠
        s.current_iso → applyCameraSetting rIso = true) ∧
    ((applyRecommendations autoAdj thr rec s rIso rEv rAp rSa).1.current_ev ≠
        s.current_ev → applyCameraSetting rEv = true) ∧
    ((applyRecommendations autoAdj thr rec s rIso rEv rAp rSa).1.current_aperture ≠
        s.current_aperture → applyCameraSetting rAp = true) ∧
    ((applyRecommendations autoAdj thr rec s rIso rEv rAp rSa).1.current_shutter_angle ≠
        s.current_shutter_angle → applyCameraSetting rSa = true) := by
  unfold applyRecommendations
  split_ifs
  · exact ⟨fun _ => rfl, fun _ => rfl, fun _ => rfl, fun _ => rfl,
      fun h => absurd rfl h, fun h => absurd rfl h, fun h => absurd rfl h,
      fun h => absurd rfl h⟩
  · exact ⟨fun _ => rfl, fun _ => rfl, fun _ => rfl, fun _ => rfl,
      fun h => absurd rfl h, fun h => absurd rfl h, fun h => absurd rfl h,
      fun h => absurd rfl h⟩
  · simp only [applyCore]
    refine ⟨fun h => ?_, fun h => ?_, fun h => ?_, fun h => ?_,
      fun h => ?_, fun h => ?_, fun h => ?_, fun h => ?_⟩
    · rw [stage4_keeps_iso, stage3_keeps_iso, stage2_keeps_iso,
        stage1_failed rec s rIso (applyCameraSetting_of_failed rIso h)]
    · rw [stage4_keeps_ev, stage3_keeps_ev,
        stage2_failed rec s rIso rEv (applyCameraSetting_of_failed rEv h),
        stage1_keeps_ev]
    · rw [stage4_keeps_ap,
        stage3_failed rec s rIso rEv rAp (applyCameraSetting_of_failed rAp h),
        stage2_keeps_ap, stage1_keeps_ap]
    · rw [stage4_failed rec s rIso rEv rAp rSa (applyCameraSetting_of_failed rSa h),
        stage3_keeps_sa, stage2_keeps_sa, stage1_keeps_sa]
    · rw [stage4_keeps_iso, stage3_keeps_iso, stage2_keeps_iso] at h
      exact stage1_changed rec s rIso h
    · rw [stage4_keeps_ev, stage3_keeps_ev, ← stage1_keeps_ev rec s rIso] at h
      exact stage2_changed rec s rIso rEv h
    · rw [stage4_keeps_ap, ← stage1_keeps_ap rec s rIso,
        ← stage2_keeps_ap rec s rIso rEv] at h
      exact stage3_changed rec s rIso rEv rAp h
    · rw [← stage1_keeps_sa rec s rIso, ← stage2_keeps_sa rec s rIso rEv,
        ← stage3_keeps_sa rec s rIso rEv rAp] at h
      exact stage4_changed rec s rIso rEv rAp rSa h

/-- Witness for C8: a timed-out request (CURL failure) against the default
state leaves the in-memory ISO unchanged. -/
theorem C8_settings_updated_only_on_success_witness :
    failedSet ⟨false, 0, false, false, false, false⟩ ∧
      (applyRecommendations true 0 ⟨2500, 1, "8", 90, "", false, 1⟩
        CameraState.initial
        ⟨false, 0, false, false, false, false⟩
        ⟨false, 0, false, false, false, false⟩
        ⟨false, 0, false, false, false, false⟩
        ⟨false, 0, false, false, false, false⟩).1.current_iso =
        CameraState.initial.current_iso :=
  ⟨Or.inl rfl,
    (C8_settings_updated_only_on_success true 0 ⟨2500, 1, "8", 90, "", false, 1⟩
      CameraState.initial
      ⟨false, 0, false, false, false, false⟩
      ⟨false, 0, false, false, false, false⟩
      ⟨false, 0, false, false, false, false⟩
      ⟨false, 0, false, false, false, false⟩).1 (Or.inl rfl)⟩

/-! ## Stream detection (C1) -/

/-- Accumulating a packet does not change the number of per-stream
counters. -/
theorem bumpSize_length (szs : List ℕ) (p : Packet) :
    (bumpSize szs p).length = szs.length := by
  unfold bumpSize
  split_ifs <;> simp

/-- Once a video stream has been identified, later packets never change
it. -/
theorem foldl_detStep_found_some (pkts : List Packet) (st : DetState) (v : ℕ)
    (h : st.found = some v) : (pkts.foldl detStep st).found = some v := by
  induction pkts generalizing st with
  | nil => exact h
  | cons p rest ih =>
    rw [List.foldl_cons]
    refine ih _ ?_
    unfold detStep
    split_ifs <;> simp [h]

/-- The byte counters of the scanning loop evolve exactly by
`bumpSize`, independently of the identification state. -/
theorem foldl_detStep_sizes (pkts : List Packet) (st : DetState) :
    (pkts.foldl detStep st).sizes = pkts.foldl bumpSize st.sizes := by
  induction pkts generalizing st with
  | nil => rfl
  | cons p rest ih =>
    rw [List.foldl_cons, List.foldl_cons, ih]
    congr 1
    unfold detStep bumpSize
    split_ifs <;> rfl

/-- The stream identified by the scanning loop is the stream of the first
packet (with an in-range stream index) that passes the NAL-candidate
test. -/
theorem foldl_detStep_found (pkts : List Packet) (szs : List ℕ) :
    (pkts.foldl detStep ⟨szs, none⟩).found =
      (pkts.find? fun q =>
        decide (q.stream_index < szs.length) && nalCandidate q).map
        Packet.stream_index := by
  induction pkts generalizing szs with
  | nil => rfl
  | cons p rest ih =>
    rw [List.foldl_cons]
    by_cases hidx : p.stream_index < szs.length
    · by_cases hnal : nalCandidate p = true
      · rw [List.find?_cons_of_pos _ (by simp [hidx, hnal])]
        have hstep : detStep ⟨szs, none⟩ p = ⟨bumpSize szs p, some p.stream_index⟩ := by
          unfold detStep
          rw [if_pos hidx, hnal]
          rfl
        rw [hstep, foldl_detStep_found_some rest _ p.stream_index rfl]
        rfl
      · have hnalf : nalCandidate p = false := by
          revert hnal
          cases nalCandidate p <;> simp
        rw [List.find?_cons_of_neg _ (by simp [hnalf])]
        have hstep : detStep ⟨szs, none⟩ p = ⟨bumpSize szs p, none⟩ := by
          unfold detStep
          rw [if_pos hidx]
          simp [hnalf]
        rw [hstep, ih (bumpSize szs p), bumpSize_length]
    · rw [List.find?_cons_of_neg _ (by simp [hidx])]
      have hstep : detStep ⟨szs, none⟩ p = ⟨szs, none⟩ := by
        unfold detStep
        rw [if_neg hidx]
      rw [hstep, ih szs]

/-- C1 (amended): within the first 30 packets read, the detector selects
the stream of the first packet larger than 1000 bytes that begins with an
H.264 Annex-B start code; when no such packet exists, it falls back to the
first (lowest-index) stream whose accumulated byte count exceeds 50000
bytes — not the stream with the largest byte count — and reports no stream
at all (abort) when no stream passes that threshold. -/
theorem C1_detect_first_nal_then_50k_fallback (nb : ℕ) (pkts : List Packet) :
    (∀ p : Packet,
      ((pkts.take 30).find? fun q =>
        decide (q.stream_index < nb) && nalCandidate q) = some p →
      detectVideoStream nb pkts = some p.stream_index) ∧
    (((pkts.take 30).find? fun q =>
        decide (q.stream_index < nb) && nalCandidate q) = none →
      detectVideoStream nb pkts = (List.range nb).find? fun i =>
        decide (50000 < (streamSizes nb (pkts.take 30)).getD i 0)) := by
  have hfound := foldl_detStep_found (pkts.take 30) (List.replicate nb 0)
  rw [List.length_replicate] at hfound
  have hsizes := foldl_detStep_sizes (pkts.take 30) ⟨List.replicate nb 0, none⟩
  constructor
  · intro p hp
    simp only [detectVideoStream]
    rw [hfound, hp]
    rfl
  · intro hp
    simp only [detectVideoStream]
    rw [hfound, hp, hsizes]
    rfl

/-- Witness for C1: a single 2000-byte packet opening with the 4-byte
start code on stream 0 is identified as the video stream. -/
theorem C1_detect_first_nal_then_50k_fallback_witness :
    ((([⟨0, 2000, [0, 0, 0, 1]⟩] : List Packet).take 30).find? fun q =>
        decide (q.stream_index < 1) && nalCandidate q) =
      some ⟨0, 2000, [0, 0, 0, 1]⟩ ∧
      detectVideoStream 1 [⟨0, 2000, [0, 0, 0, 1]⟩] = some 0 :=
  ⟨by decide,
    (C1_detect_first_nal_then_50k_fallback 1 [⟨0, 2000, [0, 0, 0, 1]⟩]).1
      ⟨0, 2000, [0, 0, 0, 1]⟩ (by decide)⟩

/-- Counterexample to C1 as stated: with no NAL-prefixed packet in the
trace, the fallback picks stream 0 (the first stream above 50 KB) even
though stream 1 has the largest accumulated byte count. -/
theorem C1_counterexample_fallback_not_largest :
    detectVideoStream 2 [⟨0, 60001, []⟩, ⟨1, 200000, []⟩] = some 0 ∧
      (streamSizes 2 [⟨0, 60001, []⟩, ⟨1, 200000, []⟩]).getD 0 0 <
        (streamSizes 2 [⟨0, 60001, []⟩, ⟨1, 200000, []⟩]).getD 1 0 ∧
      ∀ p ∈ ([⟨0, 60001, []⟩, ⟨1, 200000, []⟩] : List Packet),
        nalCandidate p = false := by
  decide

/-! ## Analyzer safety (C9) -/

/-- The clamped analysis region always lies inside the frame and is
nonempty, whatever the crop arguments. -/
theorem clampRegion_bounds (width height cx cy cw ch : ℤ) (hw : 0 < width)
    (hh : 0 < height) :
    0 ≤ (clampRegion width height cx cy cw ch).x ∧
      0 ≤ (clampRegion width height cx cy cw ch).y ∧
      0 < (clampRegion width height cx cy cw ch).w ∧
      0 < (clampRegion width height cx cy cw ch).h ∧
      (clampRegion width height cx cy cw ch).x +
        (clampRegion width height cx cy cw ch).w ≤ width ∧
      (clampRegion width height cx cy cw ch).y +
        (clampRegion width height cx cy cw ch).h ≤ height := by
  unfold clampRegion
  dsimp only
  split_ifs <;> refine ⟨?_, ?_, ?_, ?_, ?_, ?_⟩ <;> omega

/-- Every pixel of an in-frame region addresses the flat RGB24 buffer
strictly below `3 * (width * height)`. -/
theorem pixelIndex_lt (W H ax ay aw ah x y : ℕ) (hxw : ax + aw ≤ W)
    (hyh : ay + ah ≤ H) (hx : x < aw) (hy : y < ah) :
    pixelIndex W ax ay x y + 2 < 3 * (W * H) := by
  have h2 : ax + x < W := by omega
  have hq : (ay + y) * W + (ax + x) < W * H := by
    calc (ay + y) * W + (ax + x) < (ay + y) * W + W := Nat.add_lt_add_left h2 _
      _ = ((ay + y) + 1) * W := by ring
      _ ≤ H * W := Nat.mul_le_mul_right _ (by omega)
      _ = W * H := Nat.mul_comm H W
  unfold pixelIndex
  omega

/-- The BT.601 luma of a byte triple is a byte. -/
theorem grayOf_le (r g b : ℕ) (hr : r ≤ 255) (hg : g ≤ 255) (hb : b ≤ 255) :
    grayOf r g b ≤ 255 := by
  unfold grayOf
  omega

/-- Every luma gathered by the guarded pixel loop comes from bytes of the
buffer, hence is a byte (so the 256-bin histogram index is in bounds). -/
theorem grayData_mem_le (rgb : List ℕ) (W ax ay aw ah : ℕ)
    (hbytes : ∀ b ∈ rgb, b ≤ 255) :
    ∀ v ∈ grayData rgb W ax ay aw ah, v ≤ 255 := by
  intro v hv
  unfold grayData at hv
  rw [List.mem_flatMap] at hv
  obtain ⟨y, _, hv⟩ := hv
  rw [List.mem_filterMap] at hv
  obtain ⟨x, _, hfx⟩ := hv
  by_cases hg : pixelIndex W ax ay x y + 2 < rgb.length
  · rw [if_pos hg] at hfx
    obtain rfl : grayAt rgb W ax ay x y = v := by injection hfx
    unfold grayAt
    have hmem : ∀ i, i < rgb.length → rgb.getD i 0 ≤ 255 := by
      intro i hi
      refine hbytes _ ?_
      rw [List.getD_eq_getElem rgb 0 hi]
      exact List.getElem_mem hi
    exact grayOf_le _ _ _ (hmem _ (by omega)) (hmem _ (by omega)) (hmem _ (by omega))
  · rw [if_neg hg] at hfx
    cases hfx

/-- C9: for every crop rectangle and every frame with positive
dimensions, the analyzed region is clamped inside the frame; on a buffer
of the expected RGB24 size every pixel of the region passes the
`pixel_idx + 2 < size` guard (no access past the buffer), and, for byte
data, every luma fed to the 256-bin histogram is below 256. -/
theorem C9_analyze_region_and_accesses_in_bounds (width height cx cy cw ch : ℤ)
    (rgb : List ℕ) (hw : 0 < width) (hh : 0 < height)
    (hlen : rgb.length = 3 * (width.toNat * height.toNat))
    (hbytes : ∀ b ∈ rgb, b ≤ 255) :
    (0 ≤ (clampRegion width height cx cy cw ch).x ∧
      0 ≤ (clampRegion width height cx cy cw ch).y ∧
      0 < (clampRegion width height cx cy cw ch).w ∧
      0 < (clampRegion width height cx cy cw ch).h ∧
      (clampRegion width height cx cy cw ch).x +
        (clampRegion width height cx cy cw ch).w ≤ width ∧
      (clampRegion width height cx cy cw ch).y +
        (clampRegion width height cx cy cw ch).h ≤ height) ∧
    (∀ x y : ℕ, x < (clampRegion width height cx cy cw ch).w.toNat →
      y < (clampRegion width height cx cy cw ch).h.toNat →
      pixelIndex width.toNat (clampRegion width height cx cy cw ch).x.toNat
        (clampRegion width height cx cy cw ch).y.toNat x y + 2 < rgb.length) ∧
    (∀ v ∈ grayData rgb width.toNat (clampRegion width height cx cy cw ch).x.toNat
        (clampRegion width height cx cy cw ch).y.toNat
        (clampRegion width height cx cy cw ch).w.toNat
        (clampRegion width height cx cy cw ch).h.toNat, v < 256) := by
  obtain ⟨hx0, hy0, hw0, hh0, hxw, hyh⟩ :=
    clampRegion_bounds width height cx cy cw ch hw hh
  refine ⟨⟨hx0, hy0, hw0, hh0, hxw, hyh⟩, ?_, ?_⟩
  · intro x y hx hy
    rw [hlen]
    exact pixelIndex_lt width.toNat height.toNat _ _ _ _ x y (by omega) (by omega)
      hx hy
  · intro v hv
    have := grayData_mem_le rgb width.toNat _ _ _ _ hbytes v hv
    omega

/-- Witness for C9: a 2x2 frame of byte value 7 with a wild crop request
(origin (-5, 7), extent 100x1) stays in bounds. -/
theorem C9_analyze_region_and_accesses_in_bounds_witness :
    ((0 : ℤ) < 2 ∧ (0 : ℤ) < 2 ∧
      (List.replicate 12 7 : List ℕ).length = 3 * ((2 : ℤ).toNat * (2 : ℤ).toNat) ∧
      ∀ b ∈ (List.replicate 12 7 : List ℕ), b ≤ 255) ∧
    (0 ≤ (clampRegion 2 2 (-5) 7 100 1).x ∧
      0 ≤ (clampRegion 2 2 (-5) 7 100 1).y ∧
      0 < (clampRegion 2 2 (-5) 7 100 1).w ∧
      0 < (clampRegion 2 2 (-5) 7 100 1).h ∧
      (clampRegion 2 2 (-5) 7 100 1).x + (clampRegion 2 2 (-5) 7 100 1).w ≤ 2 ∧
      (clampRegion 2 2 (-5) 7 100 1).y + (clampRegion 2 2 (-5) 7 100 1).h ≤ 2) :=
  ⟨⟨by decide, by decide, by decide, by decide⟩,
    (C9_analyze_region_and_accesses_in_bounds 2 2 (-5) 7 100 1
      (List.replicate 12 7) (by decide) (by decide) (by decide) (by decide)).1⟩

/-! ## List computation helpers for the analyzer -/

/-- A filterMap whose function always fires is a map. -/
theorem filterMap_eq_map_of_all {α β : Type} (l : List α) (f : α → Option β)
    (g : α → β) (h : ∀ x ∈ l, f x = some (g x)) : l.filterMap f = l.map g := by
  induction l with
  | nil => rfl
  | cons a t ih =>
    rw [List.filterMap_cons, h a (List.mem_cons_self a t), List.map_cons,
      ih fun x hx => h x (List.mem_cons_of_mem a hx)]

/-- A map that is constant on its input list yields a replicate. -/
theorem map_eq_replicate {α β : Type} (l : List α) (f : α → β) (c : β)
    (h : ∀ x ∈ l, f x = c) : l.map f = List.replicate l.length c := by
  induction l with
  | nil => rfl
  | cons a t ih =>
    rw [List.map_cons, h a (List.mem_cons_self a t), List.length_cons,
      List.replicate_succ, ih fun x hx => h x (List.mem_cons_of_mem a hx)]

/-- A flatMap whose rows are all the same replicate is one big replicate. -/
theorem flatMap_eq_replicate {α β : Type} (l : List α) (g : α → List β) (c : β)
    (n : ℕ) (h : ∀ x ∈ l, g x = List.replicate n c) :
    l.flatMap g = List.replicate (l.length * n) c := by
  induction l with
  | nil => simp
  | cons a t ih =>
    rw [List.flatMap_cons, h a (List.mem_cons_self a t),
      ih fun x hx => h x (List.mem_cons_of_mem a hx)]
    rw [← List.replicate_add]
    congr 1
    rw [List.length_cons]
    ring

/-- A flatMap of singletons is a map. -/
theorem flatMap_singleton_eq_map {α β : Type} (l : List α) (g : α → β) :
    (l.flatMap fun y => [g y]) = l.map g := by
  induction l with
  | nil => rfl
  | cons a t ih => rw [List.flatMap_cons, List.map_cons, List.singleton_append, ih]

/-- countP on a replicate counts all or nothing. -/
theorem countP_replicate {α : Type} (p : α → Bool) (n : ℕ) (a : α) :
    (List.replicate n a).countP p = if p a then n else 0 := by
  induction n with
  | zero => simp
  | succ k ih =>
    rw [List.replicate_succ, List.countP_cons, ih]
    split_ifs with h <;> simp [h]

/-- find? on a replicate finds the element exactly when it satisfies the
test. -/
theorem find?_replicate {α : Type} (p : α → Bool) (n : ℕ) (a : α) (hn : 0 < n) :
    (List.replicate n a).find? p = if p a then some a else none := by
  induction n with
  | zero => omega
  | succ k ih =>
    rw [List.replicate_succ]
    by_cases h : p a = true
    · rw [List.find?_cons_of_pos _ h, if_pos h]
    · have hf : p a = false := by revert h; cases p a <;> simp
      rw [List.find?_cons_of_neg _ (by simp [hf]), if_neg (by simp [hf])]
      rcases Nat.eq_zero_or_pos k with hk | hk
      · subst hk; rfl
      · rw [ih hk, if_neg (by simp [hf])]

/-- Folding max over copies of the start value is the identity. -/
theorem foldl_max_replicate (n a : ℕ) :
    List.foldl max a (List.replicate n a) = a := by
  induction n with
  | zero => rfl
  | succ k ih => rw [List.replicate_succ, List.foldl_cons, max_self]; exact ih

/-- The maximum of a nonempty replicate is its element. -/
theorem max?_replicate (n a : ℕ) (hn : 0 < n) :
    (List.replicate n a).max? = some a := by
  obtain ⟨k, rfl⟩ : ∃ k, n = k + 1 := ⟨n - 1, by omega⟩
  rw [List.replicate_succ]
  show some (List.foldl max a (List.replicate k a)) = some a
  rw [foldl_max_replicate]

/-- An element of a replicate read through getD. -/
theorem getD_replicate (n : ℕ) (a : ℕ) (i : ℕ) (d : ℕ) (h : i < n) :
    (List.replicate n a).getD i d = a := by
  rw [List.getD_eq_getElem _ d (by simpa using h)]
  simp

/-- flatMap only depends on the row function on members. -/
theorem flatMap_congr {α β : Type} {l : List α} {f g : α → List β}
    (h : ∀ x ∈ l, f x = g x) : l.flatMap f = l.flatMap g := by
  induction l with
  | nil => rfl
  | cons a t ih =>
    rw [List.flatMap_cons, List.flatMap_cons, h a (List.mem_cons_self a t),
      ih fun x hx => h x (List.mem_cons_of_mem a hx)]

/-- When every pixel of the region passes the buffer guard, the gathered
luma list is exactly the row-major map of `grayAt` over the region. -/
theorem grayData_eq_map (rgb : List ℕ) (W ax ay aw ah : ℕ)
    (h : ∀ x y, x < aw → y < ah → pixelIndex W ax ay x y + 2 < rgb.length) :
    grayData rgb W ax ay aw ah =
      (List.range ah).flatMap fun y =>
        (List.range aw).map fun x => grayAt rgb W ax ay x y := by
  unfold grayData
  apply flatMap_congr
  intro y hy
  refine filterMap_eq_map_of_all _ _ _ fun x hx => ?_
  rw [if_pos (h x y (List.mem_range.mp hx) (List.mem_range.mp hy))]

/-- The full-frame region of a positive frame: origin 0, full extent. -/
theorem clampRegion_full (width height : ℤ) (hw : 0 < width) (hh : 0 < height) :
    clampRegion width height 0 0 0 0 = ⟨0, 0, width, height⟩ := by
  unfold clampRegion
  dsimp only
  congr 1 <;> omega

/-! ## Flat-gray frame (C4) -/

/-- The statistics of a uniform luma-128 list: mean 128, zero variance, no
clipping, all midtones, zero dynamic range. -/
theorem statsOfGray_flat (n : ℕ) (hn : 0 < n) :
    statsOfGray (List.replicate n 128) n = ⟨n, 128, 0, 0, 0, 0, 100, 0, 0, 0⟩ := by
  have hq : (n : ℚ) ≠ 0 := Nat.cast_ne_zero.mpr (by omega)
  unfold statsOfGray
  rw [if_pos hn]
  have hsum : (List.replicate n 128).sum = n * 128 := by
    rw [List.sum_replicate, smul_eq_mul]
  have hsq : ((List.replicate n 128).map fun v => v ^ 2).sum = n * 16384 := by
    rw [List.map_replicate, List.sum_replicate, smul_eq_mul]
    norm_num
  rw [hsum, hsq, countP_replicate, countP_replicate, countP_replicate,
    countP_replicate, countP_replicate, countP_replicate, countP_replicate,
    find?_replicate _ _ _ hn, max?_replicate _ _ hn]
  norm_num
  constructor
  · field_simp
  · constructor
    · field_simp
      ring
    · field_simp

/-- The gathered luma list of the full-frame analysis of a uniform
128-valued RGB buffer is uniform 128. -/
theorem grayData_flat (W H : ℕ) :
    grayData (List.replicate (3 * (W * H)) 128) W 0 0 W H =
      List.replicate (H * W) 128 := by
  have hguard : ∀ x y, x < W → y < H →
      pixelIndex W 0 0 x y + 2 < (List.replicate (3 * (W * H)) 128).length := by
    intro x y hx hy
    rw [List.length_replicate]
    exact pixelIndex_lt W H 0 0 W H x y (by omega) (by omega) hx hy
  rw [grayData_eq_map _ _ _ _ _ _ hguard]
  have hrow : ∀ y ∈ List.range H,
      ((List.range W).map fun x =>
        grayAt (List.replicate (3 * (W * H)) 128) W 0 0 x y) =
        List.replicate W 128 := by
    intro y hy
    have hy' := List.mem_range.mp hy
    have hmap := map_eq_replicate (List.range W)
      (fun x => grayAt (List.replicate (3 * (W * H)) 128) W 0 0 x y) 128 ?_
    · rw [hmap, List.length_range]
    · intro x hx
      have hx' := List.mem_range.mp hx
      have hidx := hguard x y hx' hy'
      rw [List.length_replicate] at hidx
      dsimp only
      unfold grayAt
      rw [getD_replicate _ _ _ _ (by omega), getD_replicate _ _ _ _ (by omega),
        getD_replicate _ _ _ _ (by omega)]
      rfl
  rw [flatMap_eq_replicate _ _ 128 W hrow, List.length_range]

/-- Full-frame analysis of a uniform luma-128 frame of any positive size:
mean 128, zero variance, no clipping, all midtones. -/
theorem analyzeExposure_flat (width height : ℤ) (hw : 0 < width)
    (hh : 0 < height) :
    analyzeExposure (List.replicate (3 * (width.toNat * height.toNat)) 128)
      width height 0 0 0 0 =
      ⟨width.toNat * height.toNat, 128, 0, 0, 0, 0, 100, 0, 0, 0⟩ := by
  have hW : 0 < width.toNat := by omega
  have hH : 0 < height.toNat := by omega
  unfold analyzeExposure
  rw [if_neg ?_, clampRegion_full width height hw hh]
  · dsimp only
    simp only [Int.toNat_zero]
    rw [grayData_flat width.toNat height.toNat, Nat.mul_comm height.toNat]
    exact statsOfGray_flat _ (by positivity)
  · rintro (h1 | h2 | h3)
    · have := congrArg List.length h1
      rw [List.length_replicate] at this
      simp at this
      omega
    · omega
    · omega

/-- Contrast and exposure score of the flat-gray statistics record: the
contrast is 0 and the score collapses to 14 under the low-contrast,
dynamic-range and tonal-distribution penalties. -/
theorem calculateExposureScore_flat (N : ℕ) :
    contrastOf ⟨N, 128, 0, 0, 0, 0, 100, 0, 0, 0⟩ = 0 ∧
      calculateExposureScore 128 ⟨N, 128, 0, 0, 0, 0, 100, 0, 0, 0⟩ = 14 := by
  have hc : contrastOf (⟨N, 128, 0, 0, 0, 0, 100, 0, 0, 0⟩ : StatsOut) = 0 := by
    unfold contrastOf
    norm_num
  refine ⟨hc, ?_⟩
  unfold calculateExposureScore
  rw [hc]
  dsimp only
  push_cast
  rw [if_pos (show (0 : ℝ) < 25 by norm_num),
    if_pos (show (0 : ℝ) < 180 by norm_num),
    if_neg (show ¬((10 : ℝ) < 0) by norm_num)]
  norm_num [min_def, max_def, abs_of_nonpos, abs_of_nonneg]

/-- C4 (amended): for a flat-gray synthetic frame of luma 128 (any
positive size, target brightness 128), the analyzer reports contrast 0,
zero clipped highlights and shadows — but the exposure score is 14, in the
bottom band of the 0-100 range, because of the low-contrast, zero
dynamic-range and tonal-distribution penalties; it is not near the top of
the range. -/
theorem C4_flat_gray_metrics (width height : ℤ) (hw : 0 < width)
    (hh : 0 < height) :
    (analyzeExposure (List.replicate (3 * (width.toNat * height.toNat)) 128)
        width height 0 0 0 0).mean = 128 ∧
      contrastOf (analyzeExposure
        (List.replicate (3 * (width.toNat * height.toNat)) 128)
        width height 0 0 0 0) = 0 ∧
      (analyzeExposure (List.replicate (3 * (width.toNat * height.toNat)) 128)
        width height 0 0 0 0).clipH = 0 ∧
      (analyzeExposure (List.replicate (3 * (width.toNat * height.toNat)) 128)
        width height 0 0 0 0).clipS = 0 ∧
      calculateExposureScore 128 (analyzeExposure
        (List.replicate (3 * (width.toNat * height.toNat)) 128)
        width height 0 0 0 0) = 14 := by
  rw [analyzeExposure_flat width height hw hh]
  obtain ⟨h1, h2⟩ := calculateExposureScore_flat (width.toNat * height.toNat)
  exact ⟨rfl, h1, rfl, rfl, h2⟩

/-- Witness for C4: the 2x2 flat-gray frame. -/
theorem C4_flat_gray_metrics_witness :
    ((0 : ℤ) < 2 ∧ (0 : ℤ) < 2) ∧
      (analyzeExposure (List.replicate (3 * ((2 : ℤ).toNat * (2 : ℤ).toNat)) 128)
        2 2 0 0 0 0).mean = 128 :=
  ⟨⟨by norm_num, by norm_num⟩,
    (C4_flat_gray_metrics 2 2 (by norm_num) (by norm_num)).1⟩

/-- Counterexample to C4 as stated: on the 2x2 flat-gray frame the
analyzer indeed reports contrast 0 and no clipping, but the exposure score
is 14 — far below the top of the 0-100 range (compare the code's own
"excellent" band at 80 and above). -/
theorem C4_counterexample_score_low :
    contrastOf (analyzeExposure
      (List.replicate (3 * ((2 : ℤ).toNat * (2 : ℤ).toNat)) 128)
      2 2 0 0 0 0) = 0 ∧
    (analyzeExposure (List.replicate (3 * ((2 : ℤ).toNat * (2 : ℤ).toNat)) 128)
      2 2 0 0 0 0).clipH = 0 ∧
    (analyzeExposure (List.replicate (3 * ((2 : ℤ).toNat * (2 : ℤ).toNat)) 128)
      2 2 0 0 0 0).clipS = 0 ∧
    calculateExposureScore 128 (analyzeExposure
      (List.replicate (3 * ((2 : ℤ).toNat * (2 : ℤ).toNat)) 128)
      2 2 0 0 0 0) = 14 ∧ (14 : ℝ) < 80 := by
  rw [analyzeExposure_flat 2 2 (by norm_num) (by norm_num)]
  obtain ⟨h1, h2⟩ := calculateExposureScore_flat ((2 : ℤ).toNat * (2 : ℤ).toNat)
  exact ⟨h1, rfl, rfl, h2, by norm_num⟩

/-! ## Half-black half-white frame (C6) -/

/-- Reading the black half of the black/white buffer. -/
theorem getD_bw_low (n i : ℕ) (d : ℕ) (h : i < 3 * n) :
    (List.replicate (3 * n) (0 : ℕ) ++ List.replicate (3 * n) 255).getD i d = 0 := by
  rw [List.getD_append _ _ _ _ (by simpa using h)]
  exact getD_replicate _ _ _ _ h

/-- Reading the white half of the black/white buffer. -/
theorem getD_bw_high (n i : ℕ) (d : ℕ) (h1 : 3 * n ≤ i) (h2 : i < 6 * n) :
    (List.replicate (3 * n) (0 : ℕ) ++ List.replicate (3 * n) 255).getD i d = 255 := by
  rw [List.getD_append_right _ _ _ _ (by simpa using h1)]
  rw [List.length_replicate]
  exact getD_replicate _ _ _ _ (by omega)

/-- The luma list of the width-1 frame whose first n pixels are pure black
and last n pure white: n zeros followed by n times 255. -/
theorem grayData_bw (n : ℕ) :
    grayData (List.replicate (3 * n) 0 ++ List.replicate (3 * n) 255)
      1 0 0 1 (2 * n) = List.replicate n 0 ++ List.replicate n 255 := by
  have hlen : (List.replicate (3 * n) (0 : ℕ) ++
      List.replicate (3 * n) 255).length = 6 * n := by
    rw [List.length_append, List.length_replicate, List.length_replicate]
    omega
  have hguard : ∀ x y, x < 1 → y < 2 * n →
      pixelIndex 1 0 0 x y + 2 <
        (List.replicate (3 * n) (0 : ℕ) ++ List.replicate (3 * n) 255).length := by
    intro x y hx hy
    rw [hlen]
    unfold pixelIndex
    omega
  rw [grayData_eq_map _ _ _ _ _ _ hguard]
  have hrange1 : List.range 1 = [0] := rfl
  have hrow : ∀ y ∈ List.range (2 * n),
      ((List.range 1).map fun x =>
        grayAt (List.replicate (3 * n) 0 ++ List.replicate (3 * n) 255) 1 0 0 x y) =
        [grayAt (List.replicate (3 * n) 0 ++ List.replicate (3 * n) 255) 1 0 0 0 y] := by
    intro y _
    rw [hrange1, List.map_cons, List.map_nil]
  rw [flatMap_congr hrow, flatMap_singleton_eq_map]
  have hpi : ∀ y : ℕ, pixelIndex 1 0 0 0 y = 3 * y := by
    intro y
    unfold pixelIndex
    ring
  have hg : ∀ y ∈ List.range (2 * n),
      grayAt (List.replicate (3 * n) 0 ++ List.replicate (3 * n) 255) 1 0 0 0 y =
        (if y < n then 0 else 255) := by
    intro y hy
    have hy' := List.mem_range.mp hy
    unfold grayAt
    rw [hpi]
    by_cases hc : y < n
    · rw [getD_bw_low _ _ _ (by omega), getD_bw_low _ _ _ (by omega),
        getD_bw_low _ _ _ (by omega), if_pos hc]
      rfl
    · rw [getD_bw_high _ _ _ (by omega) (by omega),
        getD_bw_high _ _ _ (by omega) (by omega),
        getD_bw_high _ _ _ (by omega) (by omega), if_neg hc]
      rfl
  rw [List.map_congr_left hg, two_mul, List.range_add, List.map_append,
    List.map_map]
  congr 1
  · refine (map_eq_replicate _ _ 0 ?_).trans (by rw [List.length_range])
    intro y hy
    rw [if_pos (List.mem_range.mp hy)]
  · refine (map_eq_replicate _ _ 255 ?_).trans (by rw [List.length_range])
    intro y _
    have : ¬(n + y < n) := by omega
    simp only [Function.comp]
    rw [if_neg this]

/-- The statistics of the half-black half-white luma list: 50% clipped at
each end and variance (255/2)^2. -/
theorem statsOfGray_bw (n : ℕ) (hn : 0 < n) :
    (statsOfGray (List.replicate n 0 ++ List.replicate n 255) (2 * n)).clipH = 50 ∧
      (statsOfGray (List.replicate n 0 ++ List.replicate n 255) (2 * n)).clipS = 50 ∧
      (statsOfGray (List.replicate n 0 ++ List.replicate n 255) (2 * n)).variance =
        65025 / 4 := by
  have hq : ((2 * n : ℕ) : ℚ) ≠ 0 := Nat.cast_ne_zero.mpr (by omega)
  unfold statsOfGray
  rw [if_pos (by omega)]
  dsimp only
  rw [List.countP_append, countP_replicate, countP_replicate,
    List.countP_append, countP_replicate, countP_replicate,
    List.map_append, List.map_replicate, List.map_replicate,
    List.sum_append, List.sum_replicate, List.sum_replicate,
    List.sum_append, List.sum_replicate, List.sum_replicate]
  norm_num
  repeat' constructor
  all_goals (try field_simp)
  all_goals (try ring)

/-- C6: for the width-1 frame whose pixels are 50% pure black and 50%
pure white, the analyzer reports 50% clipped highlights (luma >= 250), 50%
clipped shadows (luma <= 5), both as percentages of the analyzed pixels,
and contrast (standard deviation of luma) 127.5. -/
theorem C6_bw_frame_metrics (n : ℕ) (hn : 0 < n) :
    (analyzeExposure (List.replicate (3 * n) 0 ++ List.replicate (3 * n) 255)
        1 ((2 * n : ℕ) : ℤ) 0 0 0 0).clipH = 50 ∧
      (analyzeExposure (List.replicate (3 * n) 0 ++ List.replicate (3 * n) 255)
        1 ((2 * n : ℕ) : ℤ) 0 0 0 0).clipS = 50 ∧
      contrastOf (analyzeExposure
        (List.replicate (3 * n) 0 ++ List.replicate (3 * n) 255)
        1 ((2 * n : ℕ) : ℤ) 0 0 0 0) = 127.5 := by
  have h2n : (0 : ℤ) < ((2 * n : ℕ) : ℤ) := by
    have : 0 < 2 * n := by omega
    exact_mod_cast this
  have hne : ¬(List.replicate (3 * n) (0 : ℕ) ++ List.replicate (3 * n) 255 = [] ∨
      (1 : ℤ) ≤ 0 ∨ ((2 * n : ℕ) : ℤ) ≤ 0) := by
    rintro (h1 | h2 | h3)
    · have := congrArg List.length h1
      rw [List.length_append, List.length_replicate, List.length_replicate] at this
      simp at this
      omega
    · omega
    · omega
  unfold analyzeExposure
  rw [if_neg hne, clampRegion_full 1 _ (by norm_num) h2n]
  dsimp only
  simp only [Int.toNat_zero, Int.toNat_one, Int.toNat_natCast]
  rw [grayData_bw n, Nat.one_mul]
  obtain ⟨h1, h2, h3⟩ := statsOfGray_bw n hn
  refine ⟨h1, h2, ?_⟩
  unfold contrastOf
  rw [h3]
  have hcast : ((65025 / 4 : ℚ) : ℝ) = (127.5 : ℝ) ^ 2 := by norm_num
  rw [hcast, max_eq_right (by positivity : (0 : ℝ) ≤ (127.5 : ℝ) ^ 2)]
  exact Real.sqrt_sq (by norm_num)

/-- Witness for C6: the two-pixel frame, one black and one white. -/
theorem C6_bw_frame_metrics_witness :
    0 < 1 ∧
      (analyzeExposure (List.replicate (3 * 1) 0 ++ List.replicate (3 * 1) 255)
        1 ((2 * 1 : ℕ) : ℤ) 0 0 0 0).clipH = 50 :=
  ⟨by norm_num, (C6_bw_frame_metrics 1 (by norm_num)).1⟩

/-! ## Uniform buffer focus metrics (C7) -/

/-- Coordinates of the focus loops lie strictly inside the region. -/
theorem interior_mem (w h : ℕ) (p : ℕ × ℕ) (hp : p ∈ interior w h) :
    1 ≤ p.1 ∧ p.1 < w - 1 ∧ 1 ≤ p.2 ∧ p.2 < h - 1 := by
  unfold interior at hp
  rw [List.mem_flatMap] at hp
  obtain ⟨y, hy, hp⟩ := hp
  rw [List.mem_map] at hp
  obtain ⟨x, hx, rfl⟩ := hp
  have hy' := List.mem_range.mp hy
  have hx' := List.mem_range.mp hx
  exact ⟨by omega, by omega, by omega, by omega⟩

/-- On a uniform matrix the Laplacian response vanishes at every interior
point. -/
theorem lapAt_uniform (m : List (List ℕ)) (w h c x y : ℕ)
    (hU : ∀ u, u < w → ∀ v, v < h → cellAt m u v = (c : ℤ))
    (hx1 : 1 ≤ x) (hx : x < w - 1) (hy1 : 1 ≤ y) (hy : y < h - 1) :
    lapAt m x y = 0 := by
  unfold lapAt
  rw [hU x (by omega) y (by omega), hU x (by omega) (y - 1) (by omega),
    hU x (by omega) (y + 1) (by omega), hU (x - 1) (by omega) y (by omega),
    hU (x + 1) (by omega) y (by omega)]
  ring

/-- On a uniform matrix the horizontal Sobel response vanishes at every
interior point. -/
theorem gxAt_uniform (m : List (List ℕ)) (w h c x y : ℕ)
    (hU : ∀ u, u < w → ∀ v, v < h → cellAt m u v = (c : ℤ))
    (hx1 : 1 ≤ x) (hx : x < w - 1) (hy1 : 1 ≤ y) (hy : y < h - 1) :
    gxAt m x y = 0 := by
  unfold gxAt
  rw [hU (x - 1) (by omega) (y - 1) (by omega), hU (x + 1) (by omega) (y - 1) (by omega),
    hU (x - 1) (by omega) y (by omega), hU (x + 1) (by omega) y (by omega),
    hU (x - 1) (by omega) (y + 1) (by omega), hU (x + 1) (by omega) (y + 1) (by omega)]
  ring

/-- On a uniform matrix the vertical Sobel response vanishes at every
interior point. -/
theorem gyAt_uniform (m : List (List ℕ)) (w h c x y : ℕ)
    (hU : ∀ u, u < w → ∀ v, v < h → cellAt m u v = (c : ℤ))
    (hx1 : 1 ≤ x) (hx : x < w - 1) (hy1 : 1 ≤ y) (hy : y < h - 1) :
    gyAt m x y = 0 := by
  unfold gyAt
  rw [hU (x - 1) (by omega) (y - 1) (by omega), hU x (by omega) (y - 1) (by omega),
    hU (x + 1) (by omega) (y - 1) (by omega), hU (x - 1) (by omega) (y + 1) (by omega),
    hU x (by omega) (y + 1) (by omega), hU (x + 1) (by omega) (y + 1) (by omega)]
  ring

/-- On a uniform matrix the local 3x3 average is the common value. -/
theorem localAvgAt_uniform (m : List (List ℕ)) (w h c x y : ℕ)
    (hU : ∀ u, u < w → ∀ v, v < h → cellAt m u v = (c : ℤ))
    (hx1 : 1 ≤ x) (hx : x < w - 1) (hy1 : 1 ≤ y) (hy : y < h - 1) :
    localAvgAt m x y = (c : ℚ) := by
  unfold localAvgAt
  rw [hU (x - 1) (by omega) (y - 1) (by omega), hU x (by omega) (y - 1) (by omega),
    hU (x + 1) (by omega) (y - 1) (by omega), hU (x - 1) (by omega) y (by omega),
    hU x (by omega) y (by omega), hU (x + 1) (by omega) y (by omega),
    hU (x - 1) (by omega) (y + 1) (by omega), hU x (by omega) (y + 1) (by omega),
    hU (x + 1) (by omega) (y + 1) (by omega)]
  push_cast
  ring

/-- C7: on a perfectly uniform grayscale buffer (all cells equal, any
dimensions) the focus analyzer reports Laplacian sharpness 0 and composite
focus score 0. -/
theorem C7_uniform_focus_zero (m : List (List ℕ)) (w h c : ℕ)
    (hU : ∀ u, u < w → ∀ v, v < h → cellAt m u v = (c : ℤ)) :
    (calculateFocusMetrics m w h).sharpness = 0 ∧
      (calculateFocusMetrics m w h).score = 0 := by
  unfold calculateFocusMetrics
  by_cases hd : w < 3 ∨ h < 3
  · rw [if_pos hd]
    exact ⟨rfl, rfl⟩
  · rw [if_neg hd]
    push_neg at hd
    obtain ⟨hw3, hh3⟩ := hd
    rw [if_pos (Nat.mul_pos (by omega) (by omega) : 0 < (w - 2) * (h - 2))]
    have hlap : lapSum m w h = 0 := by
      unfold lapSum
      refine List.sum_eq_zero fun q hq => ?_
      rw [List.mem_map] at hq
      obtain ⟨p, hp, rfl⟩ := hq
      obtain ⟨h1, h2, h3, h4⟩ := interior_mem w h p hp
      rw [lapAt_uniform m w h c p.1 p.2 hU h1 h2 h3 h4]
      norm_num
    have hedge : edgeSum m w h = 0 := by
      unfold edgeSum
      refine List.sum_eq_zero fun q hq => ?_
      rw [List.mem_map] at hq
      obtain ⟨p, hp, rfl⟩ := hq
      obtain ⟨h1, h2, h3, h4⟩ := interior_mem w h p hp
      rw [gxAt_uniform m w h c p.1 p.2 hU h1 h2 h3 h4,
        gyAt_uniform m w h c p.1 p.2 hU h1 h2 h3 h4]
      norm_num
    have hhf : hfSum m w h = 0 := by
      unfold hfSum
      refine List.sum_eq_zero fun q hq => ?_
      rw [List.mem_map] at hq
      obtain ⟨p, hp, rfl⟩ := hq
      obtain ⟨h1, h2, h3, h4⟩ := interior_mem w h p hp
      rw [localAvgAt_uniform m w h c p.1 p.2 hU h1 h2 h3 h4,
        hU p.1 (by omega) p.2 (by omega)]
      push_cast
      norm_num
    rw [hlap, hedge, hhf]
    dsimp only
    norm_num

/-- Witness for C7: the uniform 3x3 matrix of value 7. -/
theorem C7_uniform_focus_zero_witness :
    (∀ u, u < 3 → ∀ v, v < 3 →
      cellAt [[7, 7, 7], [7, 7, 7], [7, 7, 7]] u v = ((7 : ℕ) : ℤ)) ∧
      (calculateFocusMetrics [[7, 7, 7], [7, 7, 7], [7, 7, 7]] 3 3).sharpness = 0 :=
  ⟨by decide,
    (C7_uniform_focus_zero [[7, 7, 7], [7, 7, 7], [7, 7, 7]] 3 3 7 (by decide)).1⟩

end ZCam
